import Mathlib

/-!
Verification of the Sumbawa Digital Ranch geospatial engine.

Shallow embedding of the backend services (geofence violation detection,
movement simulation, heatmap analytics) and the ORM model validation logic.
Numeric quantities (distances in meters, coordinates in degrees, timestamps)
are modelled over the rationals; enumerated values (health statuses, severity
labels, status strings) are modelled as the exact strings used by the code.
The PostGIS spatial collaborators (ST_Within, ST_Distance) are external to
the repository and appear as function parameters of the embedded services.
-/

namespace Ranch

/-- Health status enum values (class HealthStatusEnum, cattle.py). -/
def SEHAT : String := "Sehat"

/-- Health status enum value for animals needing attention. -/
def PERLU_PERHATIAN : String := "Perlu Perhatian"

/-- Health status enum value for sick animals. -/
def SAKIT : String := "Sakit"

/-- The three enumerated health categories of the spec, as an inductive
type; each maps to the string the code stores. -/
inductive Health where
  | healthy
  | needsAttention
  | sick
  deriving DecidableEq, Repr

/-- The string the repository stores for each health category. -/
def Health.toStatus : Health → String
  | .healthy => SEHAT
  | .needsAttention => PERLU_PERHATIAN
  | .sick => SAKIT

/-- GeofenceService._calculate_violation_severity (geofence_service.py,
lines 142-182): base severity from distance thresholds, escalated by
health status. -/
def calculate_violation_severity (distance_meters : ℚ) (health_status : String) : String :=
  let base_severity :=
    if distance_meters < 100 then "LOW"
    else if distance_meters < 500 then "MEDIUM"
    else if distance_meters < 1000 then "HIGH"
    else "CRITICAL"
  if health_status = SAKIT then
    if base_severity = "LOW" then "MEDIUM"
    else if base_severity = "MEDIUM" then "HIGH"
    else "CRITICAL"
  else if health_status = PERLU_PERHATIAN then
    if base_severity = "LOW" then "LOW"
    else if base_severity = "MEDIUM" then "HIGH"
    else "CRITICAL"
  else
    base_severity

/-- Base severity table as the spec words it: d < 100 LOW, 100-499 MEDIUM,
500-999 HIGH, at least 1000 CRITICAL. Spec-side definition, to be compared
with the code-side one. -/
def baseSeveritySpec (d : ℚ) : String :=
  if d < 100 then "LOW"
  else if d < 500 then "MEDIUM"
  else if d < 1000 then "HIGH"
  else "CRITICAL"

/-- Escalation table as the spec words it: Sick raises LOW to MEDIUM,
MEDIUM to HIGH, HIGH/CRITICAL to CRITICAL; NeedsAttention keeps LOW,
raises MEDIUM to HIGH, HIGH/CRITICAL to CRITICAL; Healthy no change.
Spec-side definition. -/
def escalateSpec : Health → String → String
  | .sick, "LOW" => "MEDIUM"
  | .sick, "MEDIUM" => "HIGH"
  | .sick, _ => "CRITICAL"
  | .needsAttention, "LOW" => "LOW"
  | .needsAttention, "MEDIUM" => "HIGH"
  | .needsAttention, _ => "CRITICAL"
  | .healthy, s => s

/-- C1: for every distance d at least 0 and every health category, the
computed severity equals the base level from the distance table escalated
by health exactly as the spec's escalation table says; in particular a
Sick entity at distance 150 m resolves to HIGH. -/
theorem severity_matches_table :
    (∀ (d : ℚ) (h : Health), 0 ≤ d →
      calculate_violation_severity d h.toStatus = escalateSpec h (baseSeveritySpec d)) ∧
    calculate_violation_severity 150 SAKIT = "HIGH" := by
  constructor
  · intro d h _
    cases h <;>
      simp only [calculate_violation_severity, baseSeveritySpec, Health.toStatus,
        SEHAT, PERLU_PERHATIAN, SAKIT] <;>
      split_ifs <;> simp_all [escalateSpec]
  · rfl

/-- Witness for C1: the severity theorem instantiated at distance 150 and
health Sick. -/
theorem severity_matches_table_witness :
    calculate_violation_severity 150 Health.sick.toStatus =
      escalateSpec Health.sick (baseSeveritySpec 150) :=
  severity_matches_table.1 150 Health.sick (by norm_num)

/-- GeofenceService._get_required_actions (geofence_service.py, lines
214-253): base actions, then distance-tiered actions, then health-status
actions (urgent line prepended and veterinary line appended when Sakit,
monitoring lines appended when Perlu Perhatian). -/
def get_required_actions (distance : ℚ) (health_status : String) : List String :=
  let actions : List String :=
    ["Locate and verify cattle position",
     "Check for physical injuries or distress"]
  let actions :=
    if 1000 < distance then
      actions ++ ["Deploy search team immediately",
                  "Notify ranch manager",
                  "Check nearby roads or dangerous areas"]
    else if 500 < distance then
      actions ++ ["Send ranch hand to retrieve",
                  "Monitor movement pattern"]
    else
      actions ++ ["Guide cattle back to geofenced area"]
  if health_status = SAKIT then
    "URGENT: Sick animal requires immediate attention" ::
      (actions ++ ["Contact veterinarian if condition worsens"])
  else if health_status = PERLU_PERHATIAN then
    actions ++ ["Monitor health condition closely",
                "Provide additional care if needed"]
  else
    actions

/-- Counterexample to C4: at distance exactly 500 m the code takes the
guide-back branch, not the send-handler branch, although the claim puts
500 m in the send-handler tier. -/
theorem required_actions_boundary_cex :
    (500 : ℚ) ≤ 500 ∧ (500 : ℚ) ≤ 1000 ∧
    "Send ranch hand to retrieve" ∉ get_required_actions 500 SEHAT ∧
    "Guide cattle back to geofenced area" ∈ get_required_actions 500 SEHAT := by
  refine ⟨le_refl _, by norm_num, ?_, ?_⟩ <;> decide

/-- C4 (amended): the action list always contains the locate and injury
checks; the search-team, manager and hazards actions appear exactly when
d > 1000; the handler and movement-monitor actions exactly when
500 < d and d <= 1000; the guide-back action exactly when d <= 500; when
Sick the urgent line is first and the veterinary line last; when
NeedsAttention the health-monitoring lines are appended. -/
theorem required_actions_spec :
    ∀ (d : ℚ) (h : Health),
      "Locate and verify cattle position" ∈ get_required_actions d h.toStatus ∧
      "Check for physical injuries or distress" ∈ get_required_actions d h.toStatus ∧
      ("Deploy search team immediately" ∈ get_required_actions d h.toStatus ↔ 1000 < d) ∧
      ("Notify ranch manager" ∈ get_required_actions d h.toStatus ↔ 1000 < d) ∧
      ("Check nearby roads or dangerous areas" ∈ get_required_actions d h.toStatus ↔ 1000 < d) ∧
      ("Send ranch hand to retrieve" ∈ get_required_actions d h.toStatus ↔ 500 < d ∧ d ≤ 1000) ∧
      ("Monitor movement pattern" ∈ get_required_actions d h.toStatus ↔ 500 < d ∧ d ≤ 1000) ∧
      ("Guide cattle back to geofenced area" ∈ get_required_actions d h.toStatus ↔ d ≤ 500) ∧
      (h = .sick →
        (get_required_actions d h.toStatus).head? =
          some "URGENT: Sick animal requires immediate attention" ∧
        (get_required_actions d h.toStatus).getLast? =
          some "Contact veterinarian if condition worsens") ∧
      (h = .needsAttention →
        "Monitor health condition closely" ∈ get_required_actions d h.toStatus ∧
        "Provide additional care if needed" ∈ get_required_actions d h.toStatus) := by
  intro d h
  cases h <;>
    simp only [get_required_actions, Health.toStatus, SEHAT, PERLU_PERHATIAN, SAKIT] <;>
    split_ifs with h1 h2 <;>
    constructor <;>
    simp_all <;>
    linarith

/-- Witness for C4: the amended theorem instantiated at distance 1500 m
and health Sick, discharging the conditional clauses. -/
theorem required_actions_spec_witness :
    "Deploy search team immediately" ∈ get_required_actions 1500 Health.sick.toStatus ∧
    (get_required_actions 1500 Health.sick.toStatus).head? =
      some "URGENT: Sick animal requires immediate attention" ∧
    (get_required_actions 1500 Health.sick.toStatus).getLast? =
      some "Contact veterinarian if condition worsens" :=
  ⟨((required_actions_spec 1500 .sick).2.2.1).mpr (by norm_num),
   ((required_actions_spec 1500 .sick).2.2.2.2.2.2.2.2.1 rfl).1,
   ((required_actions_spec 1500 .sick).2.2.2.2.2.2.2.2.1 rfl).2⟩

/-- Python floating modulo on nonnegative rationals: a % b = a - b * floor (a / b). -/
def pyMod (a b : ℚ) : ℚ := a - b * ⌊a / b⌋

/-- The clamped estimated return time in minutes computed by
GeofenceService._estimate_return_time (geofence_service.py, lines 255-289):
15 minutes per 100 m, doubled when Sakit, times 1.5 when Perlu Perhatian,
then raised to at least 10 and capped at 240. -/
def estimate_return_minutes (distance_meters : ℚ) (health_status : String) : ℚ :=
  let base := distance_meters / 100 * 15
  let base :=
    if health_status = SAKIT then base * 2
    else if health_status = PERLU_PERHATIAN then base * 1.5
    else base
  let base := max base 10
  min base 240

/-- GeofenceService._estimate_return_time, formatting branch: below 60
minutes a plain minute count, otherwise hours and minutes via floor
division and modulo by 60. -/
def estimate_return_time (distance_meters : ℚ) (health_status : String) : String :=
  let m := estimate_return_minutes distance_meters health_status
  if m < 60 then
    toString ⌊m⌋ ++ " minutes"
  else
    toString ⌊m / 60⌋ ++ "h " ++ toString ⌊pyMod m 60⌋ ++ "m"

/-- Health multiplier as the spec words it: 2.0 Sick, 1.5 NeedsAttention,
1.0 Healthy. Spec-side definition. -/
def healthMultiplierSpec : Health → ℚ
  | .sick => 2
  | .needsAttention => 1.5
  | .healthy => 1

/-- C5: for every distance d at least 0 and health category, the estimated
return time in minutes is clamp(d/100 * 15 * healthMultiplier, 10, 240),
and whenever that clamped value is at least 60 the result string has the
hours-and-minutes form Hh Mm. -/
theorem return_time_spec :
    ∀ (d : ℚ) (h : Health), 0 ≤ d →
      estimate_return_minutes d h.toStatus =
        min (max (d / 100 * 15 * healthMultiplierSpec h) 10) 240 ∧
      (60 ≤ estimate_return_minutes d h.toStatus →
        estimate_return_time d h.toStatus =
          toString ⌊estimate_return_minutes d h.toStatus / 60⌋ ++ "h " ++
            toString ⌊pyMod (estimate_return_minutes d h.toStatus) 60⌋ ++ "m") := by
  intro d h _
  constructor
  · cases h <;>
      simp only [estimate_return_minutes, healthMultiplierSpec, Health.toStatus,
        SEHAT, PERLU_PERHATIAN, SAKIT] <;>
      split_ifs <;> simp_all
  · intro h60
    rw [estimate_return_time, if_neg (by linarith)]

/-- Witness for C5: at distance 1000 m and health Sick the clamp saturates
at 240 minutes and the result is rendered as hours and minutes. -/
theorem return_time_spec_witness :
    estimate_return_minutes 1000 Health.sick.toStatus =
      min (max ((1000 : ℚ) / 100 * 15 * healthMultiplierSpec Health.sick) 10) 240 ∧
    estimate_return_time 1000 Health.sick.toStatus =
      toString ⌊estimate_return_minutes 1000 Health.sick.toStatus / 60⌋ ++ "h " ++
        toString ⌊pyMod (estimate_return_minutes 1000 Health.sick.toStatus) 60⌋ ++ "m" :=
  ⟨(return_time_spec 1000 .sick (by norm_num)).1,
   (return_time_spec 1000 .sick (by norm_num)).2
     (by norm_num [estimate_return_minutes, Health.toStatus, SAKIT, min_def, max_def])⟩

/-- One aggregated heatmap grid cell as returned by
CattleHistorySpatialQueries.get_history_heatmap_data: snapped cell
coordinates and the number of samples that fell into the cell. -/
structure HeatCell where
  lng : ℚ
  lat : ℚ
  intensity : ℕ
  deriving DecidableEq, Repr

/-- Result of HeatmapService.compare_periods (heatmap_service.py, lines
591-661): aggregate intensities of the two windows, percentage changes and
the insight classification. -/
structure PeriodComparison where
  current_intensity : ℕ
  previous_intensity : ℕ
  intensity_change_percent : ℚ
  current_activity_zones : ℕ
  previous_activity_zones : ℕ
  zones_change_percent : ℚ
  insights : List String
  deriving Repr

/-- HeatmapService.compare_periods applied to the heatmap cell lists the
two window queries return: sums the intensities, computes the percentage
changes (0 when the previous value is 0) and classifies the change as a
significant increase above +20, a significant decrease below -20, and
stable otherwise. -/
def compare_periods (current_points previous_points : List HeatCell) : PeriodComparison :=
  let current_intensity : ℕ := (current_points.map HeatCell.intensity).sum
  let previous_intensity : ℕ := (previous_points.map HeatCell.intensity).sum
  let current_activity_zones : ℕ := current_points.length
  let previous_activity_zones : ℕ := previous_points.length
  let intensity_change : ℚ :=
    if 0 < previous_intensity then
      ((current_intensity : ℚ) - previous_intensity) / previous_intensity * 100
    else 0
  let zones_change : ℚ :=
    if 0 < previous_activity_zones then
      ((current_activity_zones : ℚ) - previous_activity_zones) / previous_activity_zones * 100
    else 0
  let insights : List String :=
    if 20 < intensity_change then ["Significant increase in cattle activity detected"]
    else if intensity_change < -20 then ["Significant decrease in cattle activity detected"]
    else ["Cattle activity levels are relatively stable"]
  { current_intensity := current_intensity
    previous_intensity := previous_intensity
    intensity_change_percent := intensity_change
    current_activity_zones := current_activity_zones
    previous_activity_zones := previous_activity_zones
    zones_change_percent := zones_change
    insights := insights }

/-- Total intensity of a heatmap cell list: the aggregate the comparison
sums per window. -/
def totalIntensity (cells : List HeatCell) : ℕ := (cells.map HeatCell.intensity).sum

/-- C6: when the previous window has positive aggregate intensity the
reported change is (current - previous) / previous * 100, and the insight
is the significant-increase line exactly when the change exceeds +20, the
significant-decrease line exactly when it is below -20, and the stable
line otherwise; in particular current intensity 150 against previous 100
reports +50 percent and classifies as an increase. -/
theorem compare_periods_spec :
    (∀ current_points previous_points : List HeatCell,
      0 < totalIntensity previous_points →
      (compare_periods current_points previous_points).intensity_change_percent =
        ((totalIntensity current_points : ℚ) - (totalIntensity previous_points : ℚ)) /
          (totalIntensity previous_points : ℚ) * 100 ∧
      ((compare_periods current_points previous_points).insights =
          ["Significant increase in cattle activity detected"] ↔
        20 < (compare_periods current_points previous_points).intensity_change_percent) ∧
      ((compare_periods current_points previous_points).insights =
          ["Significant decrease in cattle activity detected"] ↔
        (compare_periods current_points previous_points).intensity_change_percent < -20) ∧
      ((compare_periods current_points previous_points).insights =
          ["Cattle activity levels are relatively stable"] ↔
        -20 ≤ (compare_periods current_points previous_points).intensity_change_percent ∧
          (compare_periods current_points previous_points).intensity_change_percent ≤ 20)) ∧
    (compare_periods [⟨0, 0, 150⟩] [⟨0, 0, 100⟩]).intensity_change_percent = 50 ∧
    (compare_periods [⟨0, 0, 150⟩] [⟨0, 0, 100⟩]).insights =
      ["Significant increase in cattle activity detected"] := by
  refine ⟨?_, ?_, ?_⟩
  · intro current_points previous_points hprev
    rw [totalIntensity] at hprev
    simp only [compare_periods, totalIntensity, if_pos hprev]
    refine ⟨trivial, ?_, ?_, ?_⟩ <;> split_ifs <;> simp_all <;> linarith
  · norm_num [compare_periods]
  · norm_num [compare_periods]

/-- Witness for C6: the comparison theorem applied to the single-cell
windows with intensities 150 and 100. -/
theorem compare_periods_spec_witness :
    (compare_periods [⟨0, 0, 150⟩] [⟨0, 0, 100⟩]).intensity_change_percent =
      ((totalIntensity [⟨0, 0, 150⟩] : ℚ) - (totalIntensity [⟨0, 0, 100⟩] : ℚ)) /
        (totalIntensity [⟨0, 0, 100⟩] : ℚ) * 100 :=
  (compare_periods_spec.1 [⟨0, 0, 150⟩] [⟨0, 0, 100⟩]
    (by norm_num [totalIntensity])).1

/-- One CattleHistory row (cattle_history.py): position sample of one
entity at one timestamp. Timestamps are modelled as rationals. -/
structure Sample where
  cattle_id : ℕ
  lng : ℚ
  lat : ℚ
  timestamp : ℚ
  deriving DecidableEq, Repr

/-- PostGIS ST_SnapToGrid with origin 0 applied to one coordinate: snap
to the nearest multiple of the grid size. External collaborator of
get_history_heatmap_data, modelled directly. -/
def snap_to_grid (grid_size x : ℚ) : ℚ := round (x / grid_size) * grid_size

/-- The timestamp filter of get_history_heatmap_data (cattle_history.py,
lines 335-339): both window ends are inclusive. -/
def in_window (start_time end_time : ℚ) (s : Sample) : Bool :=
  decide (start_time ≤ s.timestamp) && decide (s.timestamp ≤ end_time)

theorem in_window_eq_true {t0 t1 : ℚ} {s : Sample} :
    in_window t0 t1 s = true ↔ t0 ≤ s.timestamp ∧ s.timestamp ≤ t1 := by
  simp [in_window]

/-- The grid cell a sample snaps to, after converting the grid size from
meters to degrees. -/
def snapPoint (grid_size_degrees : ℚ) (s : Sample) : ℚ × ℚ :=
  (snap_to_grid grid_size_degrees s.lng, snap_to_grid grid_size_degrees s.lat)

/-- CattleHistorySpatialQueries.get_history_heatmap_data
(cattle_history.py, lines 310-353): filter samples to the inclusive time
window, snap each to the grid (grid size converted from meters to degrees
by the fixed 111000 constant), group by snapped cell and count per cell.
The SQL GROUP BY is modelled by first-occurrence grouping. -/
def get_history_heatmap_data (samples : List Sample)
    (start_time end_time grid_size_meters : ℚ) : List HeatCell :=
  let grid_size_degrees := grid_size_meters / 111000
  let snapped := (samples.filter (in_window start_time end_time)).map
    (snapPoint grid_size_degrees)
  snapped.dedup.map (fun k => ⟨k.1, k.2, snapped.count k⟩)

/-- The intensity recorded for one grid cell in a heatmap result: sum of
the intensities of the cells at those exact coordinates (there is at most
one). -/
def cellIntensity (cells : List HeatCell) (k : ℚ × ℚ) : ℕ :=
  ((cells.filter (fun c => decide (c.lng = k.1 ∧ c.lat = k.2))).map HeatCell.intensity).sum

theorem sum_intensity_keyed (keys : List (ℚ × ℚ)) (f : ℚ × ℚ → ℕ) (k : ℚ × ℚ)
    (hnd : keys.Nodup) :
    cellIntensity (keys.map (fun q => ⟨q.1, q.2, f q⟩)) k =
      if k ∈ keys then f k else 0 := by
  induction keys with
  | nil => simp [cellIntensity]
  | cons q rest ih =>
    have hq : q ∉ rest := (List.nodup_cons.mp hnd).1
    have ih' := ih (List.nodup_cons.mp hnd).2
    by_cases hqk : q = k
    · subst hqk
      have hzero : cellIntensity (rest.map (fun q => ⟨q.1, q.2, f q⟩)) q = 0 := by
        rw [ih', if_neg hq]
      simp [cellIntensity, List.filter_cons] at hzero ⊢
      simp [hzero]
    · have hkey : ¬(q.1 = k.1 ∧ q.2 = k.2) := by
        rintro ⟨h1, h2⟩
        exact hqk (Prod.ext h1 h2)
      simp only [cellIntensity, List.map_cons, List.filter_cons, decide_eq_true_eq] at ih' ⊢
      rw [if_neg (by simpa using hkey)]
      rw [ih']
      simp [List.mem_cons, hqk, Ne.symm, eq_comm]

theorem cellIntensity_heatmap (samples : List Sample)
    (start_time end_time grid_size_meters : ℚ) (k : ℚ × ℚ) :
    cellIntensity (get_history_heatmap_data samples start_time end_time grid_size_meters) k =
      ((samples.filter (in_window start_time end_time)).map
        (snapPoint (grid_size_meters / 111000))).count k := by
  unfold get_history_heatmap_data
  set snapped := (samples.filter (in_window start_time end_time)).map
    (snapPoint (grid_size_meters / 111000)) with hsn
  rw [sum_intensity_keyed snapped.dedup (fun q => snapped.count q) k snapped.nodup_dedup]
  by_cases hmem : k ∈ snapped.dedup
  · rw [if_pos hmem]
  · rw [if_neg hmem]
    exact (List.count_eq_zero.mpr (fun h => hmem (List.mem_dedup.mpr h))).symm

theorem count_window_split (t0 tm t1 g : ℚ) (k : ℚ × ℚ)
    (h0 : t0 ≤ tm) (h1 : tm ≤ t1) :
    ∀ samples : List Sample, (∀ s ∈ samples, s.timestamp ≠ tm) →
      ((samples.filter (in_window t0 tm)).map (snapPoint g)).count k +
        ((samples.filter (in_window tm t1)).map (snapPoint g)).count k =
        ((samples.filter (in_window t0 t1)).map (snapPoint g)).count k := by
  intro samples hb
  induction samples with
  | nil => simp
  | cons s rest ih =>
    have hne : s.timestamp ≠ tm := hb s (List.mem_cons_self _ _)
    have ih' := ih (fun x hx => hb x (List.mem_cons_of_mem _ hx))
    rcases lt_or_gt_of_ne hne with hlt | hgt
    · have hw2 : in_window tm t1 s = false := by
        simp [in_window, not_le.mpr hlt]
      by_cases hts : t0 ≤ s.timestamp
      · have hw1 : in_window t0 tm s = true :=
          in_window_eq_true.mpr ⟨hts, le_of_lt hlt⟩
        have hw3 : in_window t0 t1 s = true :=
          in_window_eq_true.mpr ⟨hts, le_trans (le_of_lt hlt) h1⟩
        simp only [List.filter_cons, hw1, hw2, hw3, if_true,
          Bool.false_eq_true, if_false, List.map_cons, List.count_cons]
        omega
      · have hw1 : in_window t0 tm s = false := by
          simp [in_window, hts]
        have hw3 : in_window t0 t1 s = false := by
          simp [in_window, hts]
        simpa only [List.filter_cons, hw1, hw2, hw3, Bool.false_eq_true, if_false] using ih'
    · have hw1 : in_window t0 tm s = false := by
        simp [in_window, not_le.mpr hgt]
      by_cases hts : s.timestamp ≤ t1
      · have hw2 : in_window tm t1 s = true :=
          in_window_eq_true.mpr ⟨le_of_lt hgt, hts⟩
        have hw3 : in_window t0 t1 s = true :=
          in_window_eq_true.mpr ⟨le_trans h0 (le_of_lt hgt), hts⟩
        simp only [List.filter_cons, hw1, hw2, hw3, if_true,
          Bool.false_eq_true, if_false, List.map_cons, List.count_cons]
        omega
      · have hw2 : in_window tm t1 s = false := by
          simp [in_window, hts]
        have hw3 : in_window t0 t1 s = false := by
          simp [in_window, hts]
        simpa only [List.filter_cons, hw1, hw2, hw3, Bool.false_eq_true, if_false] using ih'

/-- Counterexample to C2: both window ends of the heatmap query are
inclusive, so a sample whose timestamp is exactly the boundary between two
adjacent buckets is counted in both buckets, and the concatenated bucket
counts exceed the single-window count for the combined range. -/
theorem temporal_buckets_cex :
    cellIntensity (get_history_heatmap_data [⟨1, 0, 0, 1⟩] 0 1 100) (0, 0) +
        cellIntensity (get_history_heatmap_data [⟨1, 0, 0, 1⟩] 1 2 100) (0, 0) = 2 ∧
      cellIntensity (get_history_heatmap_data [⟨1, 0, 0, 1⟩] 0 2 100) (0, 0) = 1 := by
  rw [cellIntensity_heatmap, cellIntensity_heatmap, cellIntensity_heatmap]
  norm_num [in_window, List.filter, snapPoint, snap_to_grid, List.count_cons]

/-- C2 (amended): the two bucket windows share their boundary instant and
each is inclusive at both ends, so the per-cell counts of two adjacent
buckets sum to the single-window counts of the combined range exactly for
sample sets with no sample exactly on the shared boundary; a boundary
sample is counted in both buckets. -/
theorem temporal_buckets_amended :
    ∀ (samples : List Sample) (t0 tm t1 grid_size_meters : ℚ) (k : ℚ × ℚ),
      t0 ≤ tm → tm ≤ t1 →
      (∀ s ∈ samples, s.timestamp ≠ tm) →
      cellIntensity (get_history_heatmap_data samples t0 tm grid_size_meters) k +
          cellIntensity (get_history_heatmap_data samples tm t1 grid_size_meters) k =
        cellIntensity (get_history_heatmap_data samples t0 t1 grid_size_meters) k := by
  intro samples t0 tm t1 gm k h0 h1 hb
  rw [cellIntensity_heatmap, cellIntensity_heatmap, cellIntensity_heatmap]
  exact count_window_split t0 tm t1 (gm / 111000) k h0 h1 samples hb

/-- Witness for C2 (amended): two samples in the same cell, one in each
bucket, none on the boundary; the bucket counts 1 and 1 sum to the
combined count 2. -/
theorem temporal_buckets_amended_witness :
    cellIntensity (get_history_heatmap_data
        [⟨1, 0, 0, (1 : ℚ) / 2⟩, ⟨2, 0, 0, (3 : ℚ) / 2⟩] 0 1 100) (0, 0) +
      cellIntensity (get_history_heatmap_data
        [⟨1, 0, 0, (1 : ℚ) / 2⟩, ⟨2, 0, 0, (3 : ℚ) / 2⟩] 1 2 100) (0, 0) =
    cellIntensity (get_history_heatmap_data
        [⟨1, 0, 0, (1 : ℚ) / 2⟩, ⟨2, 0, 0, (3 : ℚ) / 2⟩] 0 2 100) (0, 0) :=
  temporal_buckets_amended [⟨1, 0, 0, (1 : ℚ) / 2⟩, ⟨2, 0, 0, (3 : ℚ) / 2⟩]
    0 1 2 100 (0, 0) (by norm_num) (by norm_num)
    (by
      intro s hs
      simp only [List.mem_cons, List.not_mem_nil, or_false] at hs
      rcases hs with rfl | rfl <;> norm_num)

/-- The intensity_statistics block of HeatmapService.get_heatmap_data:
min, max and average intensity over the returned cells, and the number of
cells ('total' in the code is the length of the intensity list). -/
structure IntensityStats where
  min : ℕ
  max : ℕ
  avg : ℚ
  total : ℕ
  deriving DecidableEq, Repr

/-- HeatmapService.get_heatmap_data (heatmap_service.py, lines 33-86):
fetch the aggregated cells for the window and attach intensity statistics;
an empty cell list yields explicit zero statistics instead of an error. -/
def get_heatmap_data (samples : List Sample)
    (start_time end_time grid_size_meters : ℚ) : List HeatCell × IntensityStats :=
  let heatmap_points :=
    get_history_heatmap_data samples start_time end_time grid_size_meters
  match heatmap_points with
  | [] => ([], ⟨0, 0, 0, 0⟩)
  | p :: rest =>
    let intensities := (p :: rest).map HeatCell.intensity
    (p :: rest,
      ⟨intensities.foldr Nat.min p.intensity,
       intensities.foldr Nat.max p.intensity,
       (intensities.sum : ℚ) / intensities.length,
       intensities.length⟩)

/-- C7: a time window containing no position samples produces an empty
cell list together with explicit zero statistics (min, max, avg and total
all 0), not an error. -/
theorem empty_window_heatmap :
    ∀ (samples : List Sample) (start_time end_time grid_size_meters : ℚ),
      (∀ s ∈ samples, ¬(start_time ≤ s.timestamp ∧ s.timestamp ≤ end_time)) →
      get_heatmap_data samples start_time end_time grid_size_meters =
        ([], ⟨0, 0, 0, 0⟩) := by
  intro samples t0 t1 gm hempty
  have hfilter : samples.filter (in_window t0 t1) = [] := by
    rw [List.filter_eq_nil_iff]
    intro s hs
    simp only [in_window, Bool.and_eq_true, decide_eq_true_eq, not_and]
    intro hle hge
    exact absurd ⟨hle, hge⟩ (hempty s hs)
  have hpoints : get_history_heatmap_data samples t0 t1 gm = [] := by
    unfold get_history_heatmap_data
    rw [hfilter]
    rfl
  unfold get_heatmap_data
  rw [hpoints]

/-- Witness for C7: a single sample stamped after the window; the window
query yields the empty list and zero statistics. -/
theorem empty_window_heatmap_witness :
    get_heatmap_data [⟨1, 0, 0, 5⟩] 0 1 100 = ([], ⟨0, 0, 0, 0⟩) :=
  empty_window_heatmap [⟨1, 0, 0, 5⟩] 0 1 100
    (by
      intro s hs
      simp only [List.mem_cons, List.not_mem_nil, or_false] at hs
      subst hs
      norm_num)

/-- A polygon ring, as the WKT boundary handed to the spatial queries:
ordered (lng, lat) vertices. -/
def Ring := List (ℚ × ℚ)

/-- The point-in-polygon collaborator: the ST_Within database query used
by CattleSimulationService._constrain_to_polygon. External to the
repository, passed as a parameter. -/
def WithinFn := ℚ → ℚ → Ring → Bool

/-- The expanding-circle search of _constrain_to_polygon
(cattle_service.py, lines 104-130): at each radius probe the direction
vectors in order and return the first probe inside the ring; double the
radius while it does not exceed the cap; once the cap is passed (or fuel
runs out, which a sufficient fuel value prevents) return the original
point unchanged. dirs carries the cosine/sine pairs of the 16 equally
spaced probe angles computed by the code. -/
def probe_search (within : WithinFn) (dirs : List (ℚ × ℚ)) (lng lat : ℚ)
    (poly : Ring) (max_radius : ℚ) : ℕ → ℚ → ℚ × ℚ
  | 0, _ => (lng, lat)
  | fuel + 1, radius =>
    if radius ≤ max_radius then
      match dirs.find? (fun d => within (lng + radius * d.1) (lat + radius * d.2) poly) with
      | some d => (lng + radius * d.1, lat + radius * d.2)
      | none => probe_search within dirs lng lat poly max_radius fuel (radius * 2)
    else (lng, lat)

/-- CattleSimulationService._constrain_to_polygon (cattle_service.py,
lines 77-134): return the point unchanged when it is already inside the
polygon, otherwise run the expanding-circle search starting at radius
0.001 degrees (about 100 m); the fuel bound is large enough that the
doubling radius always passes the cap before the fuel runs out. -/
def constrain_to_polygon (within : WithinFn) (dirs : List (ℚ × ℚ))
    (lng lat : ℚ) (poly : Ring) (max_search_degrees : ℚ) : ℚ × ℚ :=
  if within lng lat poly then (lng, lat)
  else
    probe_search within dirs lng lat poly max_search_degrees
      ((max_search_degrees * 1000).ceil.toNat + 1) (1 / 1000)

/-- CattleSimulationService.simulate_movement (cattle_service.py, lines
35-75): no current coordinates is a skipped step (None); otherwise move
by the injected random draw (heading given by its cosine and sine,
magnitude in degrees) and, when a boundary is supplied, constrain the
projected point with a search cap of twice the drift in degrees. -/
def simulate_movement (within : WithinFn) (dirs : List (ℚ × ℚ))
    (coords : Option (ℚ × ℚ)) (boundary : Option Ring)
    (max_drift_meters cosA sinA dist_degrees : ℚ) : Option (ℚ × ℚ) :=
  match coords with
  | none => none
  | some (lng, lat) =>
    let max_drift_degrees := max_drift_meters / 111000
    let new_lng := lng + dist_degrees * cosA
    let new_lat := lat + dist_degrees * sinA
    match boundary with
    | some poly =>
      some (constrain_to_polygon within dirs new_lng new_lat poly (max_drift_degrees * 2))
    | none => some (new_lng, new_lat)

theorem probe_search_within_or_id (within : WithinFn) (dirs : List (ℚ × ℚ))
    (lng lat : ℚ) (poly : Ring) (max_radius : ℚ) :
    ∀ (fuel : ℕ) (radius : ℚ),
      (let p := probe_search within dirs lng lat poly max_radius fuel radius
       within p.1 p.2 poly = true ∨ p = (lng, lat)) := by
  intro fuel
  induction fuel with
  | zero => intro radius; exact Or.inr rfl
  | succ n ih =>
    intro radius
    simp only [probe_search]
    split_ifs with hr
    · rcases hfind : dirs.find?
        (fun d => within (lng + radius * d.1) (lat + radius * d.2) poly) with _ | d
      · simpa only [hfind] using ih (radius * 2)
      · simp only [hfind]
        have hprobe := List.find?_some hfind
        exact Or.inl (by simpa using hprobe)
    · exact Or.inr rfl

/-- C3: the boundary-recovery step either returns a point the containment
test accepts or falls back to the unconstrained projected point (in
particular a point already inside is returned unchanged); consequently,
with maxDriftMeters = 0 the injected random magnitude is forced to 0,
and from a starting point inside the boundary the simulated step returns
exactly the starting point, which lies inside the boundary. -/
theorem movement_stays_in_boundary :
    (∀ (within : WithinFn) (dirs : List (ℚ × ℚ)) (lng lat : ℚ)
        (poly : Ring) (max_search_degrees : ℚ),
      (within lng lat poly = true →
        constrain_to_polygon within dirs lng lat poly max_search_degrees = (lng, lat)) ∧
      (let p := constrain_to_polygon within dirs lng lat poly max_search_degrees
       within p.1 p.2 poly = true ∨ p = (lng, lat))) ∧
    (∀ (within : WithinFn) (dirs : List (ℚ × ℚ)) (lng lat : ℚ)
        (poly : Ring) (cosA sinA dist_degrees : ℚ),
      0.1 * ((0 : ℚ) / 111000) ≤ dist_degrees → dist_degrees ≤ (0 : ℚ) / 111000 →
      within lng lat poly = true →
      simulate_movement within dirs (some (lng, lat)) (some poly) 0 cosA sinA dist_degrees =
        some (lng, lat) ∧ within lng lat poly = true) := by
  constructor
  · intro within dirs lng lat poly cap
    constructor
    · intro hin
      simp [constrain_to_polygon, hin]
    · simp only [constrain_to_polygon]
      split_ifs with hin
      · exact Or.inr rfl
      · exact probe_search_within_or_id within dirs lng lat poly cap _ _
  · intro within dirs lng lat poly cosA sinA dist hlo hhi hin
    have hd : dist = 0 := le_antisymm (by simpa using hhi) (by simpa using hlo)
    subst hd
    refine ⟨?_, hin⟩
    simp [simulate_movement, constrain_to_polygon, hin]

/-- Witness for C3: a trivially-true containment test, the origin and a
zero drift; the step returns the origin unchanged. -/
theorem movement_stays_in_boundary_witness :
    simulate_movement (fun _ _ _ => true) [] (some (0, 0)) (some []) 0 1 0 0 =
      some (0, 0) :=
  (movement_stays_in_boundary.2 (fun _ _ _ => true) [] 0 0 [] 1 0 0
    (by norm_num) (by norm_num) rfl).1

/-- Validation of one coordinate pair inside
Geofence.set_boundary_from_coordinates (geofence.py, lines 89-97): the
first failing check produces the error message, arity before ranges. -/
def validate_coordinate (point : List ℚ) : Option String :=
  match point with
  | [lng, lat] =>
    if ¬(-180 ≤ lng ∧ lng ≤ 180) then
      some ("Longitude " ++ toString lng ++ " must be between -180 and 180 degrees")
    else if ¬(-90 ≤ lat ∧ lat ≤ 90) then
      some ("Latitude " ++ toString lat ++ " must be between -90 and 90 degrees")
    else none
  | _ => some "Each coordinate must have exactly 2 values (longitude, latitude)"

/-- Geofence.set_boundary_from_coordinates (geofence.py, lines 78-110):
reject lists of fewer than 3 points, then reject the first malformed or
out-of-range point, then close the ring by appending the first point when
first and last differ; the stored polygon ring is the resulting list. -/
def set_boundary_from_coordinates (coordinates : List (List ℚ)) :
    Except String (List (List ℚ)) :=
  if coordinates.length < 3 then
    .error "Geofence must have at least 3 coordinate points"
  else
    match coordinates.findSome? validate_coordinate with
    | some e => .error e
    | none =>
      if coordinates.head? ≠ coordinates.getLast? then
        .ok (coordinates ++ coordinates.take 1)
      else
        .ok coordinates

/-- True when an Except value is an error. -/
def isErr {α : Type} (e : Except String α) : Bool :=
  match e with
  | .error _ => true
  | .ok _ => false

theorem set_boundary_ok_form (coordinates : List (List ℚ))
    (h3 : ¬coordinates.length < 3)
    (hnone : coordinates.findSome? validate_coordinate = none) :
    set_boundary_from_coordinates coordinates =
      if coordinates.head? ≠ coordinates.getLast? then
        .ok (coordinates ++ coordinates.take 1)
      else .ok coordinates := by
  rw [set_boundary_from_coordinates, if_neg h3, hnone]

/-- Counterexample to C8: a ring of three identical vertices has only one
distinct vertex, yet the boundary operation accepts it — only the vertex
count is checked, not distinctness. -/
theorem boundary_distinct_cex :
    ([[(0 : ℚ), 0], [0, 0], [0, 0]] : List (List ℚ)).dedup.length = 1 ∧
      set_boundary_from_coordinates [[(0 : ℚ), 0], [0, 0], [0, 0]] =
        .ok [[(0 : ℚ), 0], [0, 0], [0, 0]] := by
  constructor
  · rfl
  · rfl

/-- C8 (amended): the operation rejects with a descriptive error any list
of fewer than 3 points (distinctness is not checked) and any point that is
malformed or out of coordinate range; every accepted ring is closed, equal
to the input when the input already had first = last and to the input with
the first vertex appended otherwise, so its first and last vertices agree. -/
theorem boundary_validation_spec :
    ∀ coordinates : List (List ℚ),
      (coordinates.length < 3 →
        set_boundary_from_coordinates coordinates =
          .error "Geofence must have at least 3 coordinate points") ∧
      ((∃ p ∈ coordinates,
          p.length ≠ 2 ∨
            ∃ lng lat, p = [lng, lat] ∧
              (lng < -180 ∨ 180 < lng ∨ lat < -90 ∨ 90 < lat)) →
        isErr (set_boundary_from_coordinates coordinates) = true) ∧
      (∀ ring, set_boundary_from_coordinates coordinates = .ok ring →
        3 ≤ coordinates.length ∧
        ring.head? = ring.getLast? ∧
        ring = (if coordinates.head? = coordinates.getLast? then coordinates
                else coordinates ++ coordinates.take 1)) := by
  intro coordinates
  refine ⟨?_, ?_, ?_⟩
  · intro hlen
    simp [set_boundary_from_coordinates, hlen]
  · rintro ⟨p, hp, hbad⟩
    have hval : validate_coordinate p ≠ none := by
      rcases hbad with harity | ⟨lng, lat, rfl, hrange⟩
      · match p, harity with
        | [], _ => simp [validate_coordinate]
        | [x], _ => simp [validate_coordinate]
        | x :: y :: z :: rest, _ => simp [validate_coordinate]
        | [x, y], h => exact absurd rfl h
      · simp only [validate_coordinate]
        split_ifs with h1 h2 <;> simp_all
        rcases hrange with h | h | h | h <;> linarith
    have hfs : coordinates.findSome? validate_coordinate ≠ none := by
      intro hnone
      exact hval ((List.findSome?_eq_none_iff.mp hnone) p hp)
    by_cases hlen : coordinates.length < 3
    · simp [set_boundary_from_coordinates, hlen, isErr]
    · rcases hcase : coordinates.findSome? validate_coordinate with _ | e
      · exact absurd hcase hfs
      · rw [set_boundary_from_coordinates, if_neg hlen, hcase]
        rfl
  · intro ring hok
    by_cases hlen : coordinates.length < 3
    · rw [set_boundary_from_coordinates, if_pos hlen] at hok
      simp at hok
    · rcases hcase : coordinates.findSome? validate_coordinate with _ | e
      · rw [set_boundary_ok_form coordinates hlen hcase] at hok
        refine ⟨not_lt.mp hlen, ?_, ?_⟩
        · split_ifs at hok with hopen
          · simp only [Except.ok.injEq] at hok
            subst hok
            match coordinates, hlen with
            | c :: rest, _ =>
              simp only [List.take_succ_cons, List.take_zero]
              rw [List.getLast?_concat]
              rfl
          · simp only [Except.ok.injEq] at hok
            subst hok
            exact not_ne_iff.mp hopen
        · split_ifs at hok with hopen <;> simp only [Except.ok.injEq] at hok <;> subst hok
          · rw [if_neg (by exact hopen)]
          · rw [if_pos (not_ne_iff.mp hopen)]
      · rw [set_boundary_from_coordinates, if_neg hlen, hcase] at hok
        simp at hok

/-- Witness for C8: a one-point list is rejected with the descriptive
length error; a list containing longitude 200 is rejected; an accepted
open triangle is stored closed, with the first vertex appended. -/
theorem boundary_validation_spec_witness :
    set_boundary_from_coordinates [[(0 : ℚ), 0]] =
        .error "Geofence must have at least 3 coordinate points" ∧
      isErr (set_boundary_from_coordinates [[(200 : ℚ), 0], [0, 0], [1, 1]]) = true ∧
      ([[(0 : ℚ), 0], [1, 0], [0, 1], [0, 0]] : List (List ℚ)).head? =
        ([[(0 : ℚ), 0], [1, 0], [0, 1], [0, 0]] : List (List ℚ)).getLast? :=
  ⟨(boundary_validation_spec [[(0 : ℚ), 0]]).1 (by norm_num),
   (boundary_validation_spec [[(200 : ℚ), 0], [0, 0], [1, 1]]).2.1
     ⟨[200, 0], by simp, Or.inr ⟨200, 0, rfl, by norm_num⟩⟩,
   ((boundary_validation_spec [[(0 : ℚ), 0], [1, 0], [0, 1]]).2.2
       [[(0 : ℚ), 0], [1, 0], [0, 1], [0, 0]]
       (by
         rw [set_boundary_ok_form _ (by norm_num)]
         · norm_num
         · simp [validate_coordinate]
           norm_num)).2.1⟩

/-- Python str.strip modelled over the character list: drop whitespace
from both ends. -/
def pyStrip (s : String) : String :=
  ⟨((s.data.dropWhile Char.isWhitespace).reverse.dropWhile Char.isWhitespace).reverse⟩

/-- Python str.upper modelled over the character list. -/
def pyUpper (s : String) : String := ⟨s.data.map Char.toUpper⟩

/-- A Cattle row (cattle.py): identifier, age, health status string and
optional (lng, lat) location. -/
structure CattleRec where
  identifier : String
  age : ℤ
  health_status : String
  location : Option (ℚ × ℚ)
  deriving DecidableEq, Repr

/-- The enumerated health statuses accepted by update_health_status and
the cattle API routes. -/
def valid_statuses : List String := [SEHAT, PERLU_PERHATIAN, SAKIT]

/-- Cattle.__init__ (cattle.py, lines 63-98) together with the validators
that fire on assignment: identifier must be nonempty after stripping and
at most 50 characters (stored stripped and uppercased), age must lie in
0..30, coordinates must be in range when given. The health status is
assigned without any validation. -/
def cattleInit (identifier : String) (age : ℤ) (health_status : String)
    (latitude longitude : Option ℚ) : Except String CattleRec :=
  if pyStrip identifier = "" then .error "Identifier cannot be empty"
  else if 50 < identifier.length then .error "Identifier cannot exceed 50 characters"
  else if age < 0 ∨ 30 < age then .error "Age must be between 0 and 30 years"
  else
    match latitude, longitude with
    | some lat, some lng =>
      if ¬(-90 ≤ lat ∧ lat ≤ 90) then .error "Latitude must be between -90 and 90 degrees"
      else if ¬(-180 ≤ lng ∧ lng ≤ 180) then
        .error "Longitude must be between -180 and 180 degrees"
      else .ok ⟨pyUpper (pyStrip identifier), age, health_status, some (lng, lat)⟩
    | _, _ => .ok ⟨pyUpper (pyStrip identifier), age, health_status, none⟩

/-- Cattle.update_health_status (cattle.py, lines 231-244): reject any
status outside the enumerated list with a descriptive error, otherwise
store the new status. -/
def update_health_status (c : CattleRec) (new_status : String) : Except String CattleRec :=
  if new_status ∉ valid_statuses then
    .error ("Invalid health status. Must be one of: " ++ toString valid_statuses)
  else .ok { c with health_status := new_status }

/-- The request body of the cattle creation endpoint
(cattle_routes.py, CattleCreate). -/
structure CattleCreate where
  identifier : String
  age : ℤ
  health_status : String
  latitude : ℚ
  longitude : ℚ
  deriving DecidableEq, Repr

/-- The POST /cattle route (cattle_routes.py, lines 186-214): the pydantic
field constraints, then the explicit health status check, then the
duplicate-identifier check of add_cattle, then the Cattle constructor.
existing carries the identifiers already stored. -/
def create_cattle_route (existing : List String) (req : CattleCreate) :
    Except String CattleRec :=
  if req.identifier.length < 1 ∨ 50 < req.identifier.length then
    .error "identifier length must be between 1 and 50"
  else if req.age < 0 ∨ 30 < req.age then
    .error "age must be between 0 and 30"
  else if req.latitude < -90 ∨ 90 < req.latitude then
    .error "latitude must be between -90 and 90"
  else if req.longitude < -180 ∨ 180 < req.longitude then
    .error "longitude must be between -180 and 180"
  else if req.health_status ∉ valid_statuses then
    .error ("Invalid health status. Must be one of: " ++ toString valid_statuses)
  else if req.identifier ∈ existing then
    .error "Cattle with this identifier already exists"
  else
    cattleInit req.identifier req.age req.health_status (some req.latitude) (some req.longitude)

theorem cattleInit_health (identifier : String) (age : ℤ) (s : String)
    (lat lng : Option ℚ) (c : CattleRec)
    (hok : cattleInit identifier age s lat lng = .ok c) :
    c.health_status = s := by
  rcases lat with _ | la <;> rcases lng with _ | ln <;>
    simp only [cattleInit] at hok <;>
    split_ifs at hok <;>
    first
    | (simp only [Except.ok.injEq] at hok; subst hok; rfl)
    | cases hok

/-- Counterexample to C9: the Cattle constructor stores an arbitrary
health status string without rejecting it — the value Bogus is outside
the enumerated categories yet ends up on the created entity. -/
theorem health_validation_cex :
    "Bogus" ∉ valid_statuses ∧
      cattleInit "C1" 3 "Bogus" (some 0) (some 0) = .ok ⟨"C1", 3, "Bogus", some (0, 0)⟩ := by
  constructor
  · simp [valid_statuses, SEHAT, PERLU_PERHATIAN, SAKIT]
  · rfl

/-- C9 (amended): update_health_status and the API creation route reject
any status outside the enumerated categories with a descriptive error and
store only enumerated values; the bare model constructor performs no such
check and stores the given status verbatim, so rejection on creation is
guaranteed only at the route layer. -/
theorem health_validation_spec :
    (∀ (c : CattleRec) (s : String), s ∉ valid_statuses →
      isErr (update_health_status c s) = true) ∧
    (∀ (c c' : CattleRec) (s : String), update_health_status c s = .ok c' →
      s ∈ valid_statuses ∧ c'.health_status = s) ∧
    (∀ (existing : List String) (req : CattleCreate), req.health_status ∉ valid_statuses →
      isErr (create_cattle_route existing req) = true) ∧
    (∀ (existing : List String) (req : CattleCreate) (c : CattleRec),
      create_cattle_route existing req = .ok c →
      c.health_status = req.health_status ∧ c.health_status ∈ valid_statuses) ∧
    (∀ (identifier : String) (age : ℤ) (s : String) (lat lng : Option ℚ) (c : CattleRec),
      cattleInit identifier age s lat lng = .ok c → c.health_status = s) := by
  refine ⟨?_, ?_, ?_, ?_, fun i a s lat lng c h => cattleInit_health i a s lat lng c h⟩
  · intro c s hs
    simp [update_health_status, hs, isErr]
  · intro c c' s hok
    rw [update_health_status] at hok
    split_ifs at hok with hs
    simp only [Except.ok.injEq] at hok
    subst hok
    exact ⟨hs, rfl⟩
  · intro existing req hs
    rw [create_cattle_route]
    split_ifs with h1 h2 h3 h4 h5 <;> simp_all [isErr]
  · intro existing req c hok
    rw [create_cattle_route] at hok
    split_ifs at hok with h1 h2 h3 h4 h5 h6
    · have hstat := cattleInit_health _ _ _ _ _ _ hok
      exact ⟨hstat, hstat ▸ h5⟩
    all_goals cases hok

/-- Witness for C9 (amended): updating to the status Bogus errors, while
an update to the valid status Sakit stores that status. -/
theorem health_validation_spec_witness :
    isErr (update_health_status ⟨"C1", 3, "Sehat", none⟩ "Bogus") = true ∧
      ("Sakit" ∈ valid_statuses ∧
        (⟨"C1", 3, "Sakit", none⟩ : CattleRec).health_status = "Sakit") :=
  ⟨health_validation_spec.1 ⟨"C1", 3, "Sehat", none⟩ "Bogus"
     (by simp [valid_statuses, SEHAT, PERLU_PERHATIAN, SAKIT]),
   health_validation_spec.2.1 ⟨"C1", 3, "Sehat", none⟩ ⟨"C1", 3, "Sakit", none⟩ "Sakit"
     (by
       rw [update_health_status]
       norm_num [valid_statuses, SEHAT, PERLU_PERHATIAN, SAKIT])⟩

/-- A Geofence row (geofence.py): boundary ring and active flag. -/
structure GeofenceRec where
  name : String
  boundary : List (ℚ × ℚ)
  is_active : Bool
  deriving DecidableEq, Repr

/-- One entry of the geofence_statuses list produced by
get_cattle_geofence_status: containment flag, distance and violation flag
for one active geofence. -/
structure GeofenceStatus where
  geofence_name : String
  is_within : Bool
  distance_meters : ℚ
  violation : Bool
  severity : Option String
  deriving DecidableEq, Repr

/-- GeofenceService._should_cattle_be_in_geofence (geofence_service.py,
lines 369-389): the MVP policy always answers true. -/
def should_cattle_be_in_geofence (_c : CattleRec) (_g : GeofenceRec) : Bool := true

/-- The distance collaborator: the ST_Distance query (in degrees) used by
get_cattle_geofence_status. External to the repository, passed as a
parameter. -/
def DistanceFn := ℚ → ℚ → List (ℚ × ℚ) → ℚ

/-- The loop body of get_cattle_geofence_status (geofence_service.py,
lines 315-345) for one active geofence: containment flag, distance
converted at 111000 m per degree when outside, violation flag via the
policy and severity via the severity calculation. -/
def evaluate_geofence (within : WithinFn) (distance : DistanceFn)
    (c : CattleRec) (loc : ℚ × ℚ) (g : GeofenceRec) : GeofenceStatus :=
  if within loc.1 loc.2 g.boundary then
    ⟨g.name, true, 0, false, none⟩
  else
    let distance_meters := distance loc.1 loc.2 g.boundary * 111000
    if should_cattle_be_in_geofence c g then
      ⟨g.name, false, distance_meters, true,
        some (calculate_violation_severity distance_meters c.health_status)⟩
    else
      ⟨g.name, false, distance_meters, false, none⟩

/-- GeofenceService.get_cattle_geofence_status (geofence_service.py,
lines 291-367) for an existing cattle: none when the cattle has no
location; otherwise evaluate every active geofence and derive the overall
status: within_geofence when inside any active geofence, else violation
when any entry is flagged, else outside_safe_areas. -/
def get_cattle_geofence_status (within : WithinFn) (distance : DistanceFn)
    (c : CattleRec) (geofences : List GeofenceRec) :
    Option (String × List GeofenceStatus) :=
  match c.location with
  | none => none
  | some loc =>
    let statuses := (geofences.filter (·.is_active)).map (evaluate_geofence within distance c loc)
    let overall :=
      if statuses.any (·.is_within) then "within_geofence"
      else if statuses.any (·.violation) then "violation"
      else "outside_safe_areas"
    some (overall, statuses)

theorem evaluate_geofence_is_within (within : WithinFn) (distance : DistanceFn)
    (c : CattleRec) (loc : ℚ × ℚ) (g : GeofenceRec) :
    (evaluate_geofence within distance c loc g).is_within = within loc.1 loc.2 g.boundary := by
  rw [evaluate_geofence]
  split_ifs with h <;> simp [h, should_cattle_be_in_geofence]

theorem evaluate_geofence_violation (within : WithinFn) (distance : DistanceFn)
    (c : CattleRec) (loc : ℚ × ℚ) (g : GeofenceRec)
    (h : within loc.1 loc.2 g.boundary = false) :
    (evaluate_geofence within distance c loc g).violation = true := by
  rw [evaluate_geofence, if_neg (by simp [h])]
  simp [should_cattle_be_in_geofence]

/-- C10: for a cattle with a location, when at least one active geofence
exists the overall status is within_geofence or violation, never
outside_safe_areas — the always-true policy turns every not-contained
active geofence into a violation entry. -/
theorem geofence_status_never_outside :
    ∀ (within : WithinFn) (distance : DistanceFn) (c : CattleRec)
      (geofences : List GeofenceRec) (overall : String)
      (statuses : List GeofenceStatus),
      geofences.filter (·.is_active) ≠ [] →
      get_cattle_geofence_status within distance c geofences = some (overall, statuses) →
      overall = "within_geofence" ∨ overall = "violation" := by
  intro within distance c geofences overall statuses hactive hres
  rcases hloc : c.location with _ | loc
  · rw [get_cattle_geofence_status, hloc] at hres
    cases hres
  · rw [get_cattle_geofence_status, hloc] at hres
    simp only [Option.some.injEq, Prod.mk.injEq] at hres
    obtain ⟨hoverall, -⟩ := hres
    rcases hact : geofences.filter (·.is_active) with _ | ⟨g, rest⟩
    · exact absurd hact hactive
    · rw [hact] at hoverall
      by_cases hA : (((g :: rest).map (evaluate_geofence within distance c loc)).any
          (·.is_within)) = true
      · left
        rw [← hoverall, if_pos hA]
      · right
        have hw : within loc.1 loc.2 g.boundary = false := by
          by_contra hw
          apply hA
          simp only [List.map_cons, List.any_cons, Bool.or_eq_true]
          left
          rw [evaluate_geofence_is_within]
          exact Bool.of_not_eq_false hw
        have hviol : (((g :: rest).map (evaluate_geofence within distance c loc)).any
            (·.violation)) = true := by
          simp only [List.map_cons, List.any_cons, Bool.or_eq_true]
          left
          exact evaluate_geofence_violation within distance c loc g hw
        rw [← hoverall, if_neg hA, if_pos hviol]

/-- Witness for C10: a containment test that always answers false and one
active geofence; the computed overall status is violation, and the
theorem applied to this input excludes outside_safe_areas. -/
theorem geofence_status_never_outside_witness :
    get_cattle_geofence_status (fun _ _ _ => false) (fun _ _ _ => 1)
        ⟨"C1", 3, "Sehat", some (0, 0)⟩ [⟨"g", [], true⟩] =
      some ("violation", [⟨"g", false, 111000, true, some "CRITICAL"⟩]) ∧
    ("violation" = "within_geofence" ∨ "violation" = "violation") := by
  have hres : get_cattle_geofence_status (fun _ _ _ => false) (fun _ _ _ => 1)
      ⟨"C1", 3, "Sehat", some (0, 0)⟩ [⟨"g", [], true⟩] =
      some ("violation", [⟨"g", false, 111000, true, some "CRITICAL"⟩]) := by
    norm_num [get_cattle_geofence_status, evaluate_geofence,
      should_cattle_be_in_geofence, calculate_violation_severity,
      SAKIT, PERLU_PERHATIAN]
    decide
  exact ⟨hres,
    geofence_status_never_outside (fun _ _ _ => false) (fun _ _ _ => 1)
      ⟨"C1", 3, "Sehat", some (0, 0)⟩ [⟨"g", [], true⟩] "violation"
      [⟨"g", false, 111000, true, some "CRITICAL"⟩] (by simp) hres⟩

end Ranch
